import Mathlib

/-!
Verification of the clawdbot activity-ingestion core: the activity store
(`addAction`, `upsertSession`, `clearCollections`), the event normalizer
(`parseEventFrame`, `chatEventToAction`, `agentEventToAction`) and the graph
projector (`ActionGraph` edge/node construction), shallowly embedded from the
TypeScript source.
-/

namespace Clawdbot

/-! ## JavaScript-semantics helpers -/

/-- JavaScript string truthiness: an optional string is truthy when present
and non-empty (`""` and `undefined` are falsy). -/
def strTruthy : Option String → Bool
  | some s => s ≠ ""
  | none => false

/-- Contiguous-sublist check on character lists, mirroring
`String.prototype.includes`. -/
def charsInfix : List Char → List Char → Bool
  | sub, [] => sub.isEmpty
  | sub, c :: cs => sub.isPrefixOf (c :: cs) || charsInfix sub cs

/-- `s.includes(sub)` for JavaScript strings. -/
def jsIncludes (s sub : String) : Bool :=
  charsInfix sub.data s.data

/-- `x || y` on optional strings: the left operand wins when truthy. -/
def jsOrStr (x : Option String) (y : Option String) : Option String :=
  match x with
  | some s => if s = "" then y else some s
  | none => y

/-- A JavaScript key-addressed table (a `Map` / TanStack collection keyed by
`getKey`), modelled extensionally as a partial lookup function. -/
def Table (α : Type) := String → Option α

/-- Table lookup after setting key `k` to `v` (insert-or-overwrite). -/
def Table.set {α : Type} (m : Table α) (k : String) (v : α) : Table α :=
  fun q => if q = k then some v else m q

/-- The empty table. -/
def Table.empty {α : Type} : Table α := fun _ => none

theorem Table.set_same {α : Type} (m : Table α) (k : String) (v : α) :
    m.set k v k = some v := by
  simp [Table.set]

theorem Table.set_other {α : Type} (m : Table α) (k q : String) (v : α)
    (h : q ≠ k) : m.set k v q = m q := by
  simp [Table.set, h]

/-! ## Data model (`protocol` types as used by the store and normalizer) -/

/-- `MonitorAction['type']`: `delta | tool_call | tool_result | final | error
| aborted`. -/
inductive ActionType
  | delta
  | tool_call
  | tool_result
  | final
  | error
  | aborted
  deriving DecidableEq, Repr

/-- `MonitorAction['eventType']`: provenance tag, `chat` vs `agent`. -/
inductive EventType
  | chat
  | agent
  deriving DecidableEq, Repr

/-- Opaque JavaScript value (for `toolArgs` / `input` payloads, which the
core never inspects); modelled as its serialization. -/
abbrev JsVal := String

/-- One unit of agent output (`MonitorAction`). Optional fields model
TypeScript's `?`/`undefined`. -/
structure MonitorAction where
  id : String
  runId : String
  sessionKey : Option String
  seq : Int
  type : ActionType
  eventType : EventType
  timestamp : Int
  content : Option String := none
  toolName : Option String := none
  toolArgs : Option JsVal := none
  deriving Repr, DecidableEq

/-- `MonitorSession['status']`. -/
inductive SessionStatus
  | idle
  | thinking
  | active
  deriving DecidableEq, Repr

/-- A logical conversation (`MonitorSession`). -/
structure MonitorSession where
  key : String
  agentId : String
  platform : String
  recipient : String
  isGroup : Bool
  lastActivityAt : Int
  status : SessionStatus
  deriving Repr, DecidableEq

/-- The module-level mutable state of the store: the two collections plus the
`runSessionMap` learning cache. -/
structure Store where
  sessions : Table MonitorSession
  actions : Table MonitorAction
  runSessionMap : Table String

/-- The store at module load: both collections and the cache empty. -/
def Store.empty : Store :=
  { sessions := Table.empty, actions := Table.empty, runSessionMap := Table.empty }

/-! ## Activity store operations -/

/-- `upsertSession`: if a session with this key exists it is updated with
`Object.assign(draft, session)` — which, `session` being a full record,
replaces every field — otherwise the session is inserted.  Either way the
table ends up mapping `session.key` to `session`. -/
def upsertSession (σ : Store) (session : MonitorSession) : Store :=
  { σ with sessions := σ.sessions.set session.key session }

/-- The conditional session-key overwrite used by `addAction`'s update
branches: `if (sessionKey && sessionKey !== 'lifecycle') draft.sessionKey =
sessionKey`. -/
def keepOrOverwriteKey (resolved old : Option String) : Option String :=
  if strTruthy resolved && resolved ≠ some "lifecycle" then resolved else old

/-- `addAction`'s learn step: `if (action.sessionKey &&
!action.sessionKey.includes('lifecycle')) runSessionMap.set(action.runId,
action.sessionKey)`. -/
def learnMap (σ : Store) (action : MonitorAction) : Table String :=
  match action.sessionKey with
  | some k =>
      if k ≠ "" && !(jsIncludes k "lifecycle") then
        σ.runSessionMap.set action.runId k
      else σ.runSessionMap
  | none => σ.runSessionMap

/-- `addAction`'s resolve step: `let sessionKey = action.sessionKey; if
(!sessionKey || sessionKey === 'lifecycle') sessionKey =
runSessionMap.get(action.runId) || sessionKey` — reading the map as already
updated by the learn step. -/
def resolvedKey (σ : Store) (action : MonitorAction) : Option String :=
  if strTruthy action.sessionKey = false ∨ action.sessionKey = some "lifecycle" then
    jsOrStr (learnMap σ action action.runId) action.sessionKey
  else action.sessionKey

/-- The terminal action types (`final`/`error`/`aborted`). -/
def isTerminalType (t : ActionType) : Prop :=
  t = ActionType.final ∨ t = ActionType.error ∨ t = ActionType.aborted

instance (t : ActionType) : Decidable (isTerminalType t) := by
  unfold isTerminalType; infer_instance

/-- The actions table after `addAction`: deltas aggregate into the
`${runId}-stream` record, terminal types mutate that record in place when
present, and everything else (plus orphaned terminals) inserts at the
natural id if absent. -/
def addActionTable (σ : Store) (action : MonitorAction) : Table MonitorAction :=
  let sessionKey := resolvedKey σ action
  let streamingId := action.runId ++ "-stream"
  if action.type = ActionType.delta then
    match σ.actions streamingId with
    | some existing =>
        -- Append content and update sessionKey if we learned it
        σ.actions.set streamingId
          { existing with
            content := some ((existing.content.getD "") ++ (action.content.getD ""))
            seq := action.seq
            timestamp := action.timestamp
            sessionKey := keepOrOverwriteKey sessionKey existing.sessionKey }
    | none =>
        -- Create new streaming action
        σ.actions.set streamingId
          { action with id := streamingId, sessionKey := sessionKey }
  else
    match if isTerminalType action.type then σ.actions streamingId else none with
    | some streaming =>
        -- Terminal event: update the streaming action's type in place
        σ.actions.set streamingId
          { streaming with
            type := action.type
            seq := action.seq
            timestamp := action.timestamp
            sessionKey := keepOrOverwriteKey sessionKey streaming.sessionKey }
    | none =>
        -- tool_call/tool_result or orphaned terminal: add as new if absent
        match σ.actions action.id with
        | some _ => σ.actions
        | none => σ.actions.set action.id { action with sessionKey := sessionKey }

/-- `addAction`: the central ingestion algorithm — the learn step's map is
committed, the sessions table is untouched, and the actions table is
dispatched on the action type. -/
def addAction (σ : Store) (action : MonitorAction) : Store :=
  { σ with actions := addActionTable σ action, runSessionMap := learnMap σ action }

/-- `clearCollections`: deletes every session and every action (net effect:
both tables empty); the `runSessionMap` cache is not touched. -/
def clearCollections (σ : Store) : Store :=
  { σ with sessions := Table.empty, actions := Table.empty }

/-! ## Branch lemmas for `addAction` -/

/-- Every branch of `addAction` commits the learn step's map. -/
theorem addAction_runSessionMap (σ : Store) (a : MonitorAction) :
    (addAction σ a).runSessionMap = learnMap σ a := rfl

/-- `addAction` never touches the sessions table. -/
theorem addAction_sessions (σ : Store) (a : MonitorAction) :
    (addAction σ a).sessions = σ.sessions := rfl

/-- Delta branch, no streaming record yet: insert a clone of the action at
the streaming id, with the resolved key. -/
theorem addAction_delta_new (σ : Store) (a : MonitorAction)
    (hty : a.type = ActionType.delta)
    (hnone : σ.actions (a.runId ++ "-stream") = none) :
    (addAction σ a).actions =
      σ.actions.set (a.runId ++ "-stream")
        { a with id := a.runId ++ "-stream", sessionKey := resolvedKey σ a } := by
  show addActionTable σ a = _
  unfold addActionTable
  simp [hty, hnone]

/-- Delta branch, streaming record present: append content, refresh
seq/timestamp, conditionally overwrite the session key. -/
theorem addAction_delta_found (σ : Store) (a ex : MonitorAction)
    (hty : a.type = ActionType.delta)
    (hex : σ.actions (a.runId ++ "-stream") = some ex) :
    (addAction σ a).actions =
      σ.actions.set (a.runId ++ "-stream")
        { ex with
          content := some ((ex.content.getD "") ++ (a.content.getD ""))
          seq := a.seq
          timestamp := a.timestamp
          sessionKey := keepOrOverwriteKey (resolvedKey σ a) ex.sessionKey } := by
  show addActionTable σ a = _
  unfold addActionTable
  simp [hty, hex]

/-- Terminal branch, streaming record present: mutate it in place. -/
theorem addAction_terminal_found (σ : Store) (a ex : MonitorAction)
    (hterm : isTerminalType a.type)
    (hex : σ.actions (a.runId ++ "-stream") = some ex) :
    (addAction σ a).actions =
      σ.actions.set (a.runId ++ "-stream")
        { ex with
          type := a.type
          seq := a.seq
          timestamp := a.timestamp
          sessionKey := keepOrOverwriteKey (resolvedKey σ a) ex.sessionKey } := by
  have hnd : ¬ a.type = ActionType.delta := by
    rcases hterm with h | h | h <;> simp [h]
  show addActionTable σ a = _
  unfold addActionTable
  simp [hnd, hterm, hex]

/-- Default branch (tool_call/tool_result, or a terminal with no streaming
record), target id absent: insert at the natural id with the resolved key. -/
theorem addAction_default_new (σ : Store) (a : MonitorAction)
    (hnd : ¬ a.type = ActionType.delta)
    (hstream : isTerminalType a.type → σ.actions (a.runId ++ "-stream") = none)
    (hid : σ.actions a.id = none) :
    (addAction σ a).actions =
      σ.actions.set a.id { a with sessionKey := resolvedKey σ a } := by
  show addActionTable σ a = _
  unfold addActionTable
  by_cases hterm : isTerminalType a.type
  · simp [hnd, hterm, hstream hterm, hid]
  · simp [hnd, hterm, hid]

/-- Default branch, target id already present: the call leaves the actions
table unchanged. -/
theorem addAction_default_existing (σ : Store) (a ex : MonitorAction)
    (hnd : ¬ a.type = ActionType.delta)
    (hstream : isTerminalType a.type → σ.actions (a.runId ++ "-stream") = none)
    (hid : σ.actions a.id = some ex) :
    (addAction σ a).actions = σ.actions := by
  show addActionTable σ a = _
  unfold addActionTable
  by_cases hterm : isTerminalType a.type
  · simp [hnd, hterm, hstream hterm, hid]
  · simp [hnd, hterm, hid]

/-! ## C1: streaming aggregation -/

/-- C1.  Streaming aggregation: from a state with no action stored under
`${runId}-stream`, three successive `delta` actions for that runId with
contents `"Hel"`, `"lo "`, `"world"` leave exactly one stored record with id
`${runId}-stream` and content `"Hello world"`; every other table entry is
exactly as it was before the three calls. -/
theorem C1_streaming_aggregation (σ : Store) (r : String) (a1 a2 a3 : MonitorAction)
    (hr1 : a1.runId = r) (hr2 : a2.runId = r) (hr3 : a3.runId = r)
    (ht1 : a1.type = ActionType.delta) (ht2 : a2.type = ActionType.delta)
    (ht3 : a3.type = ActionType.delta)
    (hc1 : a1.content = some "Hel") (hc2 : a2.content = some "lo ")
    (hc3 : a3.content = some "world")
    (h0 : σ.actions (r ++ "-stream") = none) :
    (∃ rec : MonitorAction,
        (addAction (addAction (addAction σ a1) a2) a3).actions (r ++ "-stream") = some rec ∧
        rec.id = r ++ "-stream" ∧ rec.content = some "Hello world") ∧
    ∀ k, k ≠ r ++ "-stream" →
      (addAction (addAction (addAction σ a1) a2) a3).actions k = σ.actions k := by
  subst hr1
  have e1 := addAction_delta_new σ a1 ht1 h0
  have hs1 := congrFun e1 (a1.runId ++ "-stream")
  rw [Table.set_same] at hs1
  have e2 := addAction_delta_found (addAction σ a1) a2 _ ht2 (by rw [hr2]; exact hs1)
  rw [hr2] at e2
  have hs2 := congrFun e2 (a1.runId ++ "-stream")
  rw [Table.set_same] at hs2
  have e3 := addAction_delta_found (addAction (addAction σ a1) a2) a3 _ ht3
    (by rw [hr3]; exact hs2)
  rw [hr3] at e3
  have hs3 := congrFun e3 (a1.runId ++ "-stream")
  rw [Table.set_same] at hs3
  constructor
  · refine ⟨_, hs3, rfl, ?_⟩
    simp [hc1, hc2, hc3]
  · intro k hk
    rw [e3, Table.set_other _ _ _ _ hk, e2, Table.set_other _ _ _ _ hk,
      e1, Table.set_other _ _ _ _ hk]

/-- A concrete delta action used by the C1 witness. -/
def c1delta (n : Int) (c : String) : MonitorAction :=
  { id := "r1-d" ++ toString n, runId := "r1", sessionKey := none, seq := n,
    type := ActionType.delta, eventType := EventType.agent, timestamp := n,
    content := some c }

theorem C1_streaming_aggregation_witness :
    Store.empty.actions ("r1" ++ "-stream") = none ∧
    ((∃ rec : MonitorAction,
        (addAction (addAction (addAction Store.empty (c1delta 1 "Hel"))
          (c1delta 2 "lo ")) (c1delta 3 "world")).actions ("r1" ++ "-stream") = some rec ∧
        rec.id = "r1" ++ "-stream" ∧ rec.content = some "Hello world") ∧
    ∀ k, k ≠ "r1" ++ "-stream" →
      (addAction (addAction (addAction Store.empty (c1delta 1 "Hel"))
        (c1delta 2 "lo ")) (c1delta 3 "world")).actions k = Store.empty.actions k) :=
  ⟨rfl, C1_streaming_aggregation Store.empty "r1" _ _ _ rfl rfl rfl rfl rfl rfl
    rfl rfl rfl rfl⟩

/-! ## C2: lifecycle identity preservation -/

/-- C2.  Lifecycle identity preservation: when a streaming record exists at
`${runId}-stream`, a terminal (`final`/`error`/`aborted`) action for that
runId mutates that same record in place — its type becomes the incoming
terminal type, its id stays `${runId}-stream`, its accumulated content is
untouched — and no other table entry changes (no new record is inserted). -/
theorem C2_lifecycle_identity (σ : Store) (r : String) (a ex : MonitorAction)
    (hr : a.runId = r) (hterm : isTerminalType a.type)
    (hex : σ.actions (r ++ "-stream") = some ex)
    (hexid : ex.id = r ++ "-stream") :
    ∃ rec : MonitorAction,
      (addAction σ a).actions (r ++ "-stream") = some rec ∧
      rec.type = a.type ∧ rec.id = r ++ "-stream" ∧ rec.content = ex.content ∧
      ∀ k, k ≠ r ++ "-stream" → (addAction σ a).actions k = σ.actions k := by
  have e := addAction_terminal_found σ a ex hterm (by rw [hr]; exact hex)
  rw [hr] at e
  have hmem := congrFun e (r ++ "-stream")
  rw [Table.set_same] at hmem
  refine ⟨_, hmem, rfl, hexid, rfl, ?_⟩
  intro k hk
  rw [e, Table.set_other _ _ _ _ hk]

/-- A concrete streaming record used by the C2 witness. -/
def c2streaming : MonitorAction :=
  { id := "r1-stream", runId := "r1", sessionKey := some "conv-1", seq := 3,
    type := ActionType.delta, eventType := EventType.agent, timestamp := 3,
    content := some "Hello world" }

/-- A concrete `final` action used by the C2 witness. -/
def c2final : MonitorAction :=
  { id := "r1-9", runId := "r1", sessionKey := none, seq := 9,
    type := ActionType.final, eventType := EventType.agent, timestamp := 9 }

/-- A concrete store holding only the C2 streaming record. -/
def c2store : Store :=
  { sessions := Table.empty, actions := Table.empty.set "r1-stream" c2streaming,
    runSessionMap := Table.empty }

theorem C2_lifecycle_identity_witness :
    (c2final.runId = "r1" ∧ isTerminalType c2final.type ∧
      c2store.actions ("r1" ++ "-stream") = some c2streaming ∧
      c2streaming.id = "r1" ++ "-stream") ∧
    ∃ rec : MonitorAction,
      (addAction c2store c2final).actions ("r1" ++ "-stream") = some rec ∧
      rec.type = c2final.type ∧ rec.id = "r1" ++ "-stream" ∧
      rec.content = c2streaming.content ∧
      ∀ k, k ≠ "r1" ++ "-stream" →
        (addAction c2store c2final).actions k = c2store.actions k :=
  ⟨⟨rfl, Or.inl rfl, by decide, by decide⟩,
    C2_lifecycle_identity c2store "r1" c2final c2streaming rfl (Or.inl rfl)
      (by decide) (by decide)⟩

/-! ## C3: retroactive session resolution -/

/-- C3.  Retroactive session resolution: from the empty store, a `delta` for
runId `R` carrying the sentinel key `"lifecycle"`, then a `tool_call` for `R`
carrying `"conv-1"`, then any further `delta` for `R` (sessionKey absent or
`"lifecycle"`) leave the streaming record at `${R}-stream` with sessionKey
`"conv-1"`. -/
theorem C3_retroactive_resolution (R : String) (d1 t d2 : MonitorAction)
    (hd1r : d1.runId = R) (hd1t : d1.type = ActionType.delta)
    (hd1k : d1.sessionKey = some "lifecycle")
    (htr : t.runId = R) (htt : t.type = ActionType.tool_call)
    (htk : t.sessionKey = some "conv-1")
    (hd2r : d2.runId = R) (hd2t : d2.type = ActionType.delta)
    (hd2k : d2.sessionKey = none ∨ d2.sessionKey = some "lifecycle") :
    ∃ rec : MonitorAction,
      (addAction (addAction (addAction Store.empty d1) t) d2).actions
        (R ++ "-stream") = some rec ∧
      rec.sessionKey = some "conv-1" := by
  subst hd1r
  have e1 := addAction_delta_new Store.empty d1 hd1t rfl
  have hs1 := congrFun e1 (d1.runId ++ "-stream")
  rw [Table.set_same] at hs1
  -- the tool_call learns runId ↦ "conv-1"
  have hmap : (addAction (addAction Store.empty d1) t).runSessionMap d1.runId =
      some "conv-1" := by
    rw [addAction_runSessionMap]
    unfold learnMap
    rw [htk]
    dsimp only
    rw [if_pos (by decide), htr]
    exact Table.set_same _ _ _
  -- after the tool_call there is still some record at the streaming id
  have hnd : ¬ t.type = ActionType.delta := by rw [htt]; decide
  have hstream : isTerminalType t.type →
      (addAction Store.empty d1).actions (t.runId ++ "-stream") = none := by
    rw [htt]; intro h; exact absurd h (by decide)
  have hs2 : ∃ ex2 : MonitorAction,
      (addAction (addAction Store.empty d1) t).actions (d1.runId ++ "-stream") =
        some ex2 := by
    cases hcase : (addAction Store.empty d1).actions t.id with
    | some ex =>
        rw [addAction_default_existing (addAction Store.empty d1) t ex hnd hstream hcase]
        exact ⟨_, hs1⟩
    | none =>
        rw [addAction_default_new (addAction Store.empty d1) t hnd hstream hcase]
        by_cases hk : d1.runId ++ "-stream" = t.id
        · rw [hk, Table.set_same]; exact ⟨_, rfl⟩
        · rw [Table.set_other _ _ _ _ hk]; exact ⟨_, hs1⟩
  obtain ⟨ex2, hs2⟩ := hs2
  -- the final delta resolves against the learned mapping
  have hl : learnMap (addAction (addAction Store.empty d1) t) d2 d2.runId =
      some "conv-1" := by
    unfold learnMap
    rcases hd2k with h | h <;> rw [h] <;> dsimp only
    · rw [hd2r]; exact hmap
    · rw [if_neg (by decide), hd2r]; exact hmap
  have hres : resolvedKey (addAction (addAction Store.empty d1) t) d2 =
      some "conv-1" := by
    unfold resolvedKey
    rcases hd2k with h | h
    · rw [if_pos (Or.inl (by rw [h]; rfl)), hl, h]
      decide
    · rw [if_pos (Or.inr h), hl, h]
      decide
  have e3 := addAction_delta_found (addAction (addAction Store.empty d1) t) d2 ex2
    hd2t (by rw [hd2r]; exact hs2)
  rw [hd2r] at e3
  have hs3 := congrFun e3 (d1.runId ++ "-stream")
  rw [Table.set_same] at hs3
  refine ⟨_, hs3, ?_⟩
  show keepOrOverwriteKey (resolvedKey _ d2) ex2.sessionKey = some "conv-1"
  rw [hres]
  unfold keepOrOverwriteKey
  rw [if_pos (by decide)]

/-- Concrete actions for the C3 witness. -/
def c3d1 : MonitorAction :=
  { id := "r2-1", runId := "r2", sessionKey := some "lifecycle", seq := 1,
    type := ActionType.delta, eventType := EventType.agent, timestamp := 1,
    content := some "x" }

def c3t : MonitorAction :=
  { id := "r2-2", runId := "r2", sessionKey := some "conv-1", seq := 2,
    type := ActionType.tool_call, eventType := EventType.chat, timestamp := 2 }

def c3d2 : MonitorAction :=
  { id := "r2-3", runId := "r2", sessionKey := none, seq := 3,
    type := ActionType.delta, eventType := EventType.agent, timestamp := 3 }

theorem C3_retroactive_resolution_witness :
    (c3d1.runId = "r2" ∧ c3d1.type = ActionType.delta ∧
      c3d1.sessionKey = some "lifecycle" ∧ c3t.runId = "r2" ∧
      c3t.type = ActionType.tool_call ∧ c3t.sessionKey = some "conv-1" ∧
      c3d2.runId = "r2" ∧ c3d2.type = ActionType.delta ∧ c3d2.sessionKey = none) ∧
    ∃ rec : MonitorAction,
      (addAction (addAction (addAction Store.empty c3d1) c3t) c3d2).actions
        ("r2" ++ "-stream") = some rec ∧
      rec.sessionKey = some "conv-1" :=
  ⟨⟨rfl, rfl, rfl, rfl, rfl, rfl, rfl, rfl, rfl⟩,
    C3_retroactive_resolution "r2" c3d1 c3t c3d2 rfl rfl rfl rfl rfl rfl rfl rfl
      (Or.inl rfl)⟩

/-! ## C4: the learn step (corrected — the code excludes by substring) -/

/-- A tool_call whose sessionKey merely *contains* `"lifecycle"`. -/
def c4substr : MonitorAction :=
  { id := "r3-1", runId := "r3", sessionKey := some "agent-lifecycle-2", seq := 1,
    type := ActionType.tool_call, eventType := EventType.chat, timestamp := 1 }

/-- C4, counterexample to the claim as stated: the sessionKey
`"agent-lifecycle-2"` is present and differs from the exact sentinel
`"lifecycle"`, yet `addAction` does not record the runId → sessionKey
mapping, because the learn step tests `sessionKey.includes('lifecycle')`
(substring), not equality with the sentinel. -/
theorem C4_learn_step_counterexample :
    c4substr.sessionKey = some "agent-lifecycle-2" ∧
    "agent-lifecycle-2" ≠ "lifecycle" ∧
    (addAction Store.empty c4substr).runSessionMap c4substr.runId ≠
      some "agent-lifecycle-2" := by
  refine ⟨rfl, by decide, ?_⟩
  rw [addAction_runSessionMap]
  decide

/-- C4 (amended).  Learn step: for every action whose sessionKey is present,
non-empty and does not *contain* `"lifecycle"` as a substring, `addAction`
records the mapping runId → sessionKey in the runId→sessionKey cache. -/
theorem C4_learn_step_amended (σ : Store) (a : MonitorAction) (k : String)
    (hk : a.sessionKey = some k) (hne : k ≠ "")
    (hni : jsIncludes k "lifecycle" = false) :
    (addAction σ a).runSessionMap a.runId = some k := by
  rw [addAction_runSessionMap]
  unfold learnMap
  rw [hk]
  dsimp only
  rw [if_pos (by simp [hne, hni])]
  exact Table.set_same _ _ _

/-- A tool_call with an ordinary session key, for the C4 witness. -/
def c4plain : MonitorAction :=
  { id := "r4-1", runId := "r4", sessionKey := some "conv-2", seq := 1,
    type := ActionType.tool_call, eventType := EventType.chat, timestamp := 1 }

theorem C4_learn_step_amended_witness :
    (c4plain.sessionKey = some "conv-2" ∧ "conv-2" ≠ "" ∧
      jsIncludes "conv-2" "lifecycle" = false) ∧
    (addAction Store.empty c4plain).runSessionMap c4plain.runId = some "conv-2" :=
  ⟨⟨rfl, by decide, by decide⟩,
    C4_learn_step_amended Store.empty c4plain "conv-2" rfl (by decide) (by decide)⟩

/-! ## C5: idempotent re-delivery -/

/-- C5.  Idempotent re-delivery: for a `tool_call`/`tool_result` action, or
a terminal action whose runId has no streaming record (an orphaned terminal,
whose natural id is not the streaming id), calling `addAction` twice from
the same starting state stores exactly one record, at the natural id; the
second call leaves the actions table exactly as after the first call. -/
theorem C5_idempotent_redelivery (σ : Store) (a : MonitorAction)
    (hcase : a.type = ActionType.tool_call ∨ a.type = ActionType.tool_result ∨
      (isTerminalType a.type ∧ σ.actions (a.runId ++ "-stream") = none ∧
        a.id ≠ a.runId ++ "-stream"))
    (hid : σ.actions a.id = none) :
    (addAction (addAction σ a) a).actions =
      σ.actions.set a.id { a with sessionKey := resolvedKey σ a } ∧
    (addAction (addAction σ a) a).actions = (addAction σ a).actions := by
  have hnd : ¬ a.type = ActionType.delta := by
    rcases hcase with h | h | ⟨h, _, _⟩
    · rw [h]; decide
    · rw [h]; decide
    · rcases h with h | h | h <;> rw [h] <;> decide
  have hstream1 : isTerminalType a.type → σ.actions (a.runId ++ "-stream") = none := by
    intro hterm
    rcases hcase with h | h | ⟨_, h0, _⟩
    · rw [h] at hterm; exact absurd hterm (by decide)
    · rw [h] at hterm; exact absurd hterm (by decide)
    · exact h0
  have e1 := addAction_default_new σ a hnd hstream1 hid
  have hmem := congrFun e1 a.id
  rw [Table.set_same] at hmem
  have hstream2 : isTerminalType a.type →
      (addAction σ a).actions (a.runId ++ "-stream") = none := by
    intro hterm
    rcases hcase with h | h | ⟨_, h0, hne⟩
    · rw [h] at hterm; exact absurd hterm (by decide)
    · rw [h] at hterm; exact absurd hterm (by decide)
    · rw [e1, Table.set_other _ _ _ _ (Ne.symm hne)]
      exact h0
  have e2 := addAction_default_existing (addAction σ a) a _ hnd hstream2 hmem
  exact ⟨by rw [e2, e1], by rw [e2]⟩

/-- A concrete tool_call for the C5 witness. -/
def c5act : MonitorAction :=
  { id := "r5-1", runId := "r5", sessionKey := some "conv-1", seq := 1,
    type := ActionType.tool_call, eventType := EventType.chat, timestamp := 1 }

theorem C5_idempotent_redelivery_witness :
    (c5act.type = ActionType.tool_call ∧ Store.empty.actions c5act.id = none) ∧
    ((addAction (addAction Store.empty c5act) c5act).actions =
        Store.empty.actions.set c5act.id
          { c5act with sessionKey := resolvedKey Store.empty c5act } ∧
      (addAction (addAction Store.empty c5act) c5act).actions =
        (addAction Store.empty c5act).actions) :=
  ⟨⟨rfl, rfl⟩, C5_idempotent_redelivery Store.empty c5act (Or.inl rfl) rfl⟩

/-! ## C7: clear() frame effect -/

/-- C7.  `clear()` empties both tables and leaves the runId→sessionKey
cache unchanged; a delta added after the clear for a runId whose mapping was
learned before is still stored with the previously learned sessionKey. -/
theorem C7_clear_frame_effect (σ : Store) (R sk : String) (a : MonitorAction)
    (hlearn : σ.runSessionMap R = some sk) (hsk : sk ≠ "")
    (har : a.runId = R) (hat : a.type = ActionType.delta)
    (hak : a.sessionKey = none ∨ a.sessionKey = some "lifecycle") :
    (∀ k, (clearCollections σ).sessions k = none) ∧
    (∀ k, (clearCollections σ).actions k = none) ∧
    (clearCollections σ).runSessionMap = σ.runSessionMap ∧
    ∃ rec : MonitorAction,
      (addAction (clearCollections σ) a).actions (R ++ "-stream") = some rec ∧
      rec.sessionKey = some sk := by
  subst har
  have e := addAction_delta_new (clearCollections σ) a hat rfl
  have hs := congrFun e (a.runId ++ "-stream")
  rw [Table.set_same] at hs
  refine ⟨fun k => rfl, fun k => rfl, rfl, _, hs, ?_⟩
  show resolvedKey (clearCollections σ) a = some sk
  have hl : learnMap (clearCollections σ) a a.runId = some sk := by
    unfold learnMap
    rcases hak with h | h <;> rw [h] <;> dsimp only
    · exact hlearn
    · rw [if_neg (by decide)]; exact hlearn
  unfold resolvedKey
  rcases hak with h | h
  · rw [if_pos (Or.inl (by rw [h]; rfl)), hl, h]
    dsimp only [jsOrStr]
    rw [if_neg hsk]
  · rw [if_pos (Or.inr h), hl, h]
    dsimp only [jsOrStr]
    rw [if_neg hsk]

/-- Concrete store and delta for the C7 witness. -/
def c7session : MonitorSession :=
  { key := "s1", agentId := "a", platform := "p", recipient := "u",
    isGroup := false, lastActivityAt := 0, status := SessionStatus.active }

def c7store : Store :=
  { sessions := Table.empty.set "s1" c7session,
    actions := Table.empty.set "r5-1" c5act,
    runSessionMap := Table.empty.set "r6" "conv-3" }

def c7delta : MonitorAction :=
  { id := "r6-7", runId := "r6", sessionKey := some "lifecycle", seq := 7,
    type := ActionType.delta, eventType := EventType.agent, timestamp := 7 }

theorem C7_clear_frame_effect_witness :
    (c7store.runSessionMap "r6" = some "conv-3" ∧ "conv-3" ≠ "" ∧
      c7delta.runId = "r6" ∧ c7delta.type = ActionType.delta ∧
      c7delta.sessionKey = some "lifecycle") ∧
    ((∀ k, (clearCollections c7store).sessions k = none) ∧
      (∀ k, (clearCollections c7store).actions k = none) ∧
      (clearCollections c7store).runSessionMap = c7store.runSessionMap ∧
      ∃ rec : MonitorAction,
        (addAction (clearCollections c7store) c7delta).actions ("r6" ++ "-stream") =
          some rec ∧
        rec.sessionKey = some "conv-3") :=
  ⟨⟨by decide, by decide, rfl, rfl, rfl⟩,
    C7_clear_frame_effect c7store "r6" "conv-3" c7delta (by decide) (by decide)
      rfl rfl (Or.inr rfl)⟩

/-! ## Event normalizer (`parser.ts`) -/

/-- One block of a structured chat-message content list.  An optional field
models "present and a string" (a present non-string field behaves like an
absent one for the normalizer's `typeof` checks). -/
structure ContentBlock where
  type : String
  text : Option String := none
  name : Option String := none
  input : Option JsVal := none
  content : Option String := none
  deriving Repr, DecidableEq

/-- `msg.content`: a content-block array, a string, or (modelled as absent)
anything else. -/
inductive MsgContent
  | blocks (bs : List ContentBlock)
  | str (s : String)
  deriving Repr, DecidableEq

/-- `event.message`: a plain string or a structured object. -/
inductive ChatMessage
  | str (s : String)
  | obj (content : Option MsgContent) (text : Option String)
  deriving Repr, DecidableEq

/-- JS truthiness of `event.message`: strings are falsy when empty, objects
are always truthy. -/
def msgTruthy : Option ChatMessage → Bool
  | some (ChatMessage.str s) => s ≠ ""
  | some (ChatMessage.obj _ _) => true
  | none => false

/-- The chat view of a transport payload (`ChatEvent`). -/
structure ChatEvent where
  runId : String
  sessionKey : String
  seq : Int
  state : ActionType
  message : Option ChatMessage := none
  errorMessage : Option String := none
  deriving Repr, DecidableEq

/-- The typed payload of an agent-internal event (`{type, name, input,
content, text}` union). -/
structure AgentData where
  type : String
  name : Option String := none
  input : Option JsVal := none
  content : Option String := none
  text : Option String := none
  deriving Repr, DecidableEq

/-- The agent view of a transport payload (`AgentEvent`). -/
structure AgentEvent where
  runId : String
  seq : Int
  ts : Int
  stream : String
  data : AgentData
  deriving Repr, DecidableEq

/-- `String(b.name || 'unknown')`: a falsy name yields `"unknown"`. -/
def jsNameOrUnknown : Option String → String
  | some n => if n = "" then "unknown" else n
  | none => "unknown"

/-- One step of the chat-content block scan: `text` blocks collect their
text, a `tool_use` block overrides the type to `tool_call` and sets
`toolName`/`toolArgs`, a `tool_result` block overrides the type to
`tool_result` and contributes its string content. -/
def scanBlock (acc : MonitorAction × List String) (b : ContentBlock) :
    MonitorAction × List String :=
  let (act, texts) := acc
  if b.type = "text" then
    match b.text with
    | some t => (act, texts ++ [t])
    | none => (act, texts)
  else if b.type = "tool_use" then
    let act2 := { act with
      type := ActionType.tool_call
      toolName := some (jsNameOrUnknown b.name)
      toolArgs := b.input }
    (act2, texts)
  else if b.type = "tool_result" then
    match b.content with
    | some c => ({ act with type := ActionType.tool_result }, texts ++ [c])
    | none => ({ act with type := ActionType.tool_result }, texts)
  else (act, texts)

/-- `chatEventToAction`: build an action with the natural id
`${runId}-${seq}`, the type initialised from the frame's declared state, and
content extracted from the message payload; an explicit error message
replaces the content outright.  `Date.now()` is threaded as `now`. -/
def chatEventToAction (now : Int) (event : ChatEvent) : MonitorAction :=
  let action : MonitorAction :=
    { id := event.runId ++ "-" ++ toString event.seq
      runId := event.runId
      sessionKey := some event.sessionKey
      seq := event.seq
      type := event.state
      eventType := EventType.chat
      timestamp := now }
  let action :=
    if msgTruthy event.message then
      match event.message with
      | some (ChatMessage.str s) => { action with content := some s }
      | some (ChatMessage.obj c t) =>
          match c with
          | some (MsgContent.blocks bs) =>
              let scanned := bs.foldl scanBlock (action, [])
              if scanned.2 ≠ [] then
                { scanned.1 with content := some (String.join scanned.2) }
              else scanned.1
          | some (MsgContent.str s) => { action with content := some s }
          | none =>
              match t with
              | some tx => { action with content := some tx }
              | none => action
      | none => action
    else action
  match event.errorMessage with
  | some e => if e ≠ "" then { action with content := some e } else action
  | none => action

/-- `agentEventToAction`: `tool_use` → `tool_call`, `tool_result` →
`tool_result`, `text` → `delta`; anything else leaves the defaults (`delta`
with no content/toolName/toolArgs). -/
def agentEventToAction (event : AgentEvent) : MonitorAction :=
  let base : MonitorAction :=
    { id := event.runId ++ "-" ++ toString event.seq
      runId := event.runId
      sessionKey := some event.stream
      seq := event.seq
      type := ActionType.delta
      eventType := EventType.agent
      timestamp := event.ts }
  if event.data.type = "tool_use" then
    let toolName := jsNameOrUnknown event.data.name
    { base with
      type := ActionType.tool_call
      toolName := some toolName
      toolArgs := event.data.input
      content := some ("Tool: " ++ toolName) }
  else if event.data.type = "tool_result" then
    { base with
      type := ActionType.tool_result
      content := some (event.data.content.getD "") }
  else if event.data.type = "text" then
    { base with content := some (event.data.text.getD "") }
  else base

/-- A transport payload, type-erased in the source (`frame.payload` is
`unknown` and is cast to `ChatEvent` or `AgentEvent` according to the
frame's discriminator); modelled as the union of both views' fields. -/
structure FramePayload where
  runId : String
  seq : Int
  sessionKey : String
  state : ActionType
  message : Option ChatMessage := none
  errorMessage : Option String := none
  ts : Int
  stream : String
  data : AgentData
  deriving Repr, DecidableEq

/-- `frame.payload as ChatEvent`. -/
def FramePayload.asChat (p : FramePayload) : ChatEvent :=
  { runId := p.runId, sessionKey := p.sessionKey, seq := p.seq,
    state := p.state, message := p.message, errorMessage := p.errorMessage }

/-- `frame.payload as AgentEvent`. -/
def FramePayload.asAgent (p : FramePayload) : AgentEvent :=
  { runId := p.runId, seq := p.seq, ts := p.ts, stream := p.stream,
    data := p.data }

/-- One message from the transport (`EventFrame`): a discriminator and an
optional payload. -/
structure EventFrame where
  event : String
  payload : Option FramePayload
  deriving Repr, DecidableEq

/-- The `Partial<MonitorSession>` patch produced for chat frames. -/
structure SessionPatch where
  key : String
  status : SessionStatus
  lastActivityAt : Int
  deriving Repr, DecidableEq

/-- The normalizer's result record `{ session?, action? }`. -/
structure ParsedFrame where
  session : Option SessionPatch := none
  action : Option MonitorAction := none
  deriving Repr, DecidableEq

/-- `parseEventFrame`: chat frames yield an action plus a session patch
(status `thinking` for deltas, else `active`), agent frames yield only an
action, anything else yields `null`. -/
def parseEventFrame (now : Int) (frame : EventFrame) : Option ParsedFrame :=
  match frame.payload with
  | some payload =>
      if frame.event = "chat" then
        let chatEvent := payload.asChat
        some
          { action := some (chatEventToAction now chatEvent)
            session := some
              { key := chatEvent.sessionKey
                status := if chatEvent.state = ActionType.delta then
                    SessionStatus.thinking
                  else SessionStatus.active
                lastActivityAt := now } }
      else if frame.event = "agent" then
        some { action := some (agentEventToAction payload.asAgent) }
      else none
  | none => none

/-! ## C8: normalizer totality on malformed frames -/

/-- C8.  Normalizer totality: `parseEventFrame` returns `null` exactly when
the payload is missing or the discriminator is neither `"chat"` nor
`"agent"`; equivalently, a non-null result arises exactly from the two
recognized shapes.  (Totality — "without throwing" — is inherent: the
function is defined on every frame.) -/
theorem C8_normalizer_totality (now : Int) (frame : EventFrame) :
    (parseEventFrame now frame = none ↔
      frame.payload = none ∨ (frame.event ≠ "chat" ∧ frame.event ≠ "agent")) ∧
    (parseEventFrame now frame ≠ none ↔
      (frame.event = "chat" ∨ frame.event = "agent") ∧ frame.payload ≠ none) := by
  unfold parseEventFrame
  cases hp : frame.payload with
  | none => simp
  | some p =>
      by_cases hc : frame.event = "chat"
      · simp [hc]
      · by_cases ha : frame.event = "agent"
        · simp [hc, ha]
        · simp [hc, ha]

/-! ## C10: unknown agent payload defaults to an empty delta -/

/-- A contentless delta appends nothing to the text of an existing
streaming record, and creates a contentless streaming record otherwise. -/
theorem addAction_delta_nocontent (a : MonitorAction)
    (hty : a.type = ActionType.delta) (hcon : a.content = none) :
    (∀ (σ : Store) (ex : MonitorAction),
      σ.actions (a.runId ++ "-stream") = some ex →
      ∃ rec : MonitorAction,
        (addAction σ a).actions (a.runId ++ "-stream") = some rec ∧
        rec.content.getD "" = ex.content.getD "") ∧
    (∀ σ : Store, σ.actions (a.runId ++ "-stream") = none →
      ∃ rec : MonitorAction,
        (addAction σ a).actions (a.runId ++ "-stream") = some rec ∧
        rec.content = none) := by
  constructor
  · intro σ ex hex
    have e := addAction_delta_found σ a ex hty hex
    have hs := congrFun e (a.runId ++ "-stream")
    rw [Table.set_same] at hs
    refine ⟨_, hs, ?_⟩
    simp [hcon, String.append_empty]
  · intro σ h0
    have e := addAction_delta_new σ a hty h0
    have hs := congrFun e (a.runId ++ "-stream")
    rw [Table.set_same] at hs
    exact ⟨_, hs, hcon⟩

/-- C10.  An agent-internal frame whose `data.type` is none of `tool_use`,
`tool_result`, `text` yields (without throwing) a `delta` action with
`content`, `toolName`, `toolArgs` all undefined, carrying the frame's
runId/seq/ts/stream; fed to `addAction`, it appends nothing to the text of
an existing streaming record, and a streaming record it creates carries no
content. -/
theorem C10_unknown_agent_payload (event : AgentEvent)
    (h1 : event.data.type ≠ "tool_use") (h2 : event.data.type ≠ "tool_result")
    (h3 : event.data.type ≠ "text") :
    agentEventToAction event =
      { id := event.runId ++ "-" ++ toString event.seq
        runId := event.runId
        sessionKey := some event.stream
        seq := event.seq
        type := ActionType.delta
        eventType := EventType.agent
        timestamp := event.ts
        content := none
        toolName := none
        toolArgs := none } ∧
    (∀ (σ : Store) (ex : MonitorAction),
      σ.actions (event.runId ++ "-stream") = some ex →
      ∃ rec : MonitorAction,
        (addAction σ (agentEventToAction event)).actions
          (event.runId ++ "-stream") = some rec ∧
        rec.content.getD "" = ex.content.getD "") ∧
    (∀ σ : Store, σ.actions (event.runId ++ "-stream") = none →
      ∃ rec : MonitorAction,
        (addAction σ (agentEventToAction event)).actions
          (event.runId ++ "-stream") = some rec ∧
        rec.content = none) := by
  have he : agentEventToAction event =
      { id := event.runId ++ "-" ++ toString event.seq
        runId := event.runId
        sessionKey := some event.stream
        seq := event.seq
        type := ActionType.delta
        eventType := EventType.agent
        timestamp := event.ts
        content := none
        toolName := none
        toolArgs := none } := by
    unfold agentEventToAction
    rw [if_neg h1, if_neg h2, if_neg h3]
  have hrun : (agentEventToAction event).runId = event.runId := by rw [he]
  have H := addAction_delta_nocontent (agentEventToAction event)
    (by rw [he]) (by rw [he])
  rw [hrun] at H
  exact ⟨he, H.1, H.2⟩

/-- A concrete agent event with an unrecognized `data.type`, for the C10
witness. -/
def c10event : AgentEvent :=
  { runId := "r8", seq := 4, ts := 40, stream := "conv-9",
    data := { type := "thinking" } }

theorem C10_unknown_agent_payload_witness :
    (c10event.data.type ≠ "tool_use" ∧ c10event.data.type ≠ "tool_result" ∧
      c10event.data.type ≠ "text") ∧
    (agentEventToAction c10event =
      { id := "r8" ++ "-" ++ toString (4 : Int)
        runId := "r8"
        sessionKey := some "conv-9"
        seq := 4
        type := ActionType.delta
        eventType := EventType.agent
        timestamp := 40
        content := none
        toolName := none
        toolArgs := none } ∧
    (∀ (σ : Store) (ex : MonitorAction),
      σ.actions ("r8" ++ "-stream") = some ex →
      ∃ rec : MonitorAction,
        (addAction σ (agentEventToAction c10event)).actions
          ("r8" ++ "-stream") = some rec ∧
        rec.content.getD "" = ex.content.getD "") ∧
    (∀ σ : Store, σ.actions ("r8" ++ "-stream") = none →
      ∃ rec : MonitorAction,
        (addAction σ (agentEventToAction c10event)).actions
          ("r8" ++ "-stream") = some rec ∧
        rec.content = none)) :=
  ⟨⟨by decide, by decide, by decide⟩,
    C10_unknown_agent_payload c10event (by decide) (by decide) (by decide)⟩

/-! ## C6: session-key guessing (corrected — the patch key is verbatim) -/

/-- Modelled from the spec: the transport callback that pipes normalizer
output into the store, and the session-key decomposition `parseSessionKey`,
are not among these sources (`protocol.ts` and the subscription handler are
missing); per the spec the chat frame's session patch flows into the
Activity Store's `upsertSession`.  The decomposition is therefore passed as
a parameter (`decompose key = (agentId, platform, recipient, isGroup)`);
faithful to the spec's words, the completed record keeps the patch's `key`,
`status` and `lastActivityAt`. -/
def applySessionPatch (decompose : String → String × String × String × Bool)
    (σ : Store) (p : SessionPatch) : Store :=
  let d := decompose p.key
  upsertSession σ
    { key := p.key
      agentId := d.1
      platform := d.2.1
      recipient := d.2.2.1
      isGroup := d.2.2.2
      lastActivityAt := p.lastActivityAt
      status := p.status }

/-- A chat frame whose sessionKey is the sentinel `"lifecycle"`. -/
def c6payload : FramePayload :=
  { runId := "r9", seq := 1, sessionKey := "lifecycle",
    state := ActionType.delta, ts := 0, stream := "lifecycle",
    data := { type := "text" } }

def c6frame : EventFrame := { event := "chat", payload := some c6payload }

/-- The session patch that `parseEventFrame` produces for `c6frame`. -/
def c6patch : SessionPatch :=
  { key := "lifecycle", status := SessionStatus.thinking, lastActivityAt := 0 }

/-- A trivial session-key decomposition used to instantiate the
spec-modelled glue at a concrete input. -/
def c6decompose : String → String × String × String × Bool :=
  fun _ => ("", "", "", false)

/-- C6, counterexample to the claim as stated: a chat frame carrying
`sessionKey = "lifecycle"` yields a session patch with key `"lifecycle"`
verbatim, and feeding that patch through the store's `upsertSession` inserts
a `Session` under the sentinel key — so a session whose key fails the
platform/recipient parse does enter the sessions table. -/
theorem C6_session_guessing_counterexample :
    (parseEventFrame 0 c6frame).bind (fun r => r.session) = some c6patch ∧
    c6patch.key = "lifecycle" ∧
    (applySessionPatch c6decompose Store.empty c6patch).sessions "lifecycle" ≠
      none := by
  refine ⟨by decide, rfl, by decide⟩

/-- C6 (amended).  For every chat frame with a payload, the normalizer's
session patch carries the frame's sessionKey verbatim (no parse-success
check), and upserting the completed patch stores a session under exactly
that key, whatever it is: the parse-success invariant is not enforced. -/
theorem C6_session_key_verbatim (now : Int) (frame : EventFrame)
    (p : FramePayload) (hev : frame.event = "chat")
    (hp : frame.payload = some p) :
    ∃ res : ParsedFrame, parseEventFrame now frame = some res ∧
      ∃ patch : SessionPatch, res.session = some patch ∧
        patch.key = p.sessionKey ∧
        ∀ (d : String → String × String × String × Bool) (σ : Store),
          ∃ s : MonitorSession, s.key = p.sessionKey ∧
            (applySessionPatch d σ patch).sessions =
              σ.sessions.set p.sessionKey s := by
  unfold parseEventFrame
  rw [hp]
  dsimp only
  rw [if_pos hev]
  refine ⟨_, rfl, _, rfl, rfl, ?_⟩
  intro d σ
  exact ⟨_, rfl, rfl⟩

theorem C6_session_key_verbatim_witness :
    (c6frame.event = "chat" ∧ c6frame.payload = some c6payload) ∧
    ∃ res : ParsedFrame, parseEventFrame 0 c6frame = some res ∧
      ∃ patch : SessionPatch, res.session = some patch ∧
        patch.key = c6payload.sessionKey ∧
        ∀ (d : String → String × String × String × Bool) (σ : Store),
          ∃ s : MonitorSession, s.key = c6payload.sessionKey ∧
            (applySessionPatch d σ patch).sessions =
              σ.sessions.set c6payload.sessionKey s :=
  ⟨⟨rfl, rfl⟩, C6_session_key_verbatim 0 c6frame c6payload rfl rfl⟩

/-! ## Graph projector (`ActionGraph` node/edge construction) -/

/-- JS template-literal stringification of a possibly-undefined sessionKey
(`` `session-${first.sessionKey}` `` prints `undefined` for an absent key). -/
def jsKeyStr : Option String → String
  | some k => k
  | none => "undefined"

/-- `visibleActions`: the last 50 actions when no session is selected
(`actions.slice(-50)`), else the actions whose `sessionKey` equals the
selection. -/
def visibleActions (actions : List MonitorAction) (selected : Option String) :
    List MonitorAction :=
  match selected with
  | none => actions.drop (actions.length - 50)
  | some k => actions.filter (fun a => decide (a.sessionKey = some k))

/-- `visibleSessions`: all sessions when no selection, else the matching
one. -/
def visibleSessions (sessions : List MonitorSession) (selected : Option String) :
    List MonitorSession :=
  match selected with
  | none => sessions
  | some k => sessions.filter (fun s => decide (s.key = k))

/-- The set of visible session node ids (`sessionNodeIds`). -/
def sessionNodeIds (sessions : List MonitorSession) (selected : Option String) :
    List String :=
  (visibleSessions sessions selected).map (fun s => "session-" ++ s.key)

/-- The data payload carried by a graph node. -/
inductive NodeData
  | crab (active : Bool)
  | session (s : MonitorSession)
  | action (a : MonitorAction)
  deriving DecidableEq, Repr

/-- A graph node (id, type tag, data payload; positions are all `(0,0)`
before layout and are an external concern). -/
structure GNode where
  id : String
  ntype : String
  data : NodeData
  deriving DecidableEq, Repr

/-- A graph edge (markerEnd/style are constant visual attributes; crab
edges leave `animated` unset, i.e. falsy). -/
structure GEdge where
  id : String
  source : String
  target : String
  animated : Bool := false
  deriving DecidableEq, Repr

/-- Node construction: the crab/origin node (active when any session or
visible action exists), one node per visible session, one per visible
action. -/
def buildNodes (sessions : List MonitorSession) (actions : List MonitorAction)
    (selected : Option String) : List GNode :=
  let va := visibleActions actions selected
  let vs := visibleSessions sessions selected
  ({ id := "crab-origin", ntype := "crab",
      data := NodeData.crab (!sessions.isEmpty || !va.isEmpty) }
    :: vs.map (fun s =>
      { id := "session-" ++ s.key, ntype := "session",
        data := NodeData.session s }))
    ++ va.map (fun a =>
      { id := "action-" ++ a.id, ntype := "action", data := NodeData.action a })

/-- Stable insertion of an action into a seq-sorted list: the action goes
before the first element whose seq is not smaller. -/
def insertBySeq (a : MonitorAction) : List MonitorAction → List MonitorAction
  | [] => [a]
  | b :: bs => if b.seq < a.seq then b :: insertBySeq a bs else a :: b :: bs

/-- `[...runActs].sort((a, b) => a.seq - b.seq)`: a stable ascending sort
by `seq` (JS `Array.prototype.sort` is stable). -/
def sortBySeq : List MonitorAction → List MonitorAction
  | [] => []
  | a :: rest => insertBySeq a (sortBySeq rest)

/-- First-occurrence deduplication of the runId list — the key iteration
order of the `runActions` JS `Map`. -/
def dedupFirst : List String → List String
  | [] => []
  | x :: xs => x :: dedupFirst (xs.filter (fun y => decide (y ≠ x)))
  termination_by l => l.length
  decreasing_by exact Nat.lt_succ_of_le (List.length_filter_le _ _)

/-- The pairwise chain `action → action` edges within one sorted run group
(each edge animated when the *later* action is a delta). -/
def chainEdges : MonitorAction → List MonitorAction → List GEdge
  | _, [] => []
  | prev, curr :: rest =>
      { id := "e-" ++ prev.id ++ "-" ++ curr.id
        source := "action-" ++ prev.id
        target := "action-" ++ curr.id
        animated := decide (curr.type = ActionType.delta) } :: chainEdges curr rest

/-- The edges contributed by one run: the session→first-action edge — only
when the session node id is among the visible set, else skipped (a
diagnostic is logged) — followed by the pairwise chain. -/
def runEdges (ids : List String) (va : List MonitorAction) (r : String) :
    List GEdge :=
  match sortBySeq (va.filter (fun a => decide (a.runId = r))) with
  | [] => []
  | first :: rest =>
      (if ("session-" ++ jsKeyStr first.sessionKey) ∈ ids then
        [{ id := "e-session-" ++ r
           source := "session-" ++ jsKeyStr first.sessionKey
           target := "action-" ++ first.id
           animated := decide (first.type = ActionType.delta) }]
      else []) ++ chainEdges first rest

/-- The crab → session edges. -/
def crabEdges (vs : List MonitorSession) : List GEdge :=
  vs.map (fun s =>
    { id := "e-crab-" ++ s.key, source := "crab-origin",
      target := "session-" ++ s.key })

/-- Edge construction: crab edges, then — iterating the run groups in
first-occurrence order — each run's session edge (when emitted) and chain. -/
def buildEdges (sessions : List MonitorSession) (actions : List MonitorAction)
    (selected : Option String) : List GEdge :=
  let va := visibleActions actions selected
  let vs := visibleSessions sessions selected
  let ids := sessionNodeIds sessions selected
  crabEdges vs ++ (dedupFirst (va.map (fun a => a.runId))).flatMap (runEdges ids va)

/-! ## Helper lemmas for the graph projector -/

theorem mem_insertBySeq (x a : MonitorAction) (l : List MonitorAction) :
    x ∈ insertBySeq a l ↔ x = a ∨ x ∈ l := by
  induction l with
  | nil => simp [insertBySeq]
  | cons b bs ih =>
      unfold insertBySeq
      by_cases h : b.seq < a.seq
      · simp only [if_pos h, List.mem_cons, ih]
        tauto
      · simp only [if_neg h, List.mem_cons]

theorem mem_sortBySeq (x : MonitorAction) (l : List MonitorAction) :
    x ∈ sortBySeq l ↔ x ∈ l := by
  induction l with
  | nil => simp [sortBySeq]
  | cons a rest ih => simp [sortBySeq, mem_insertBySeq, ih]

theorem mem_dedupFirst (x : String) (l : List String) :
    x ∈ dedupFirst l ↔ x ∈ l := by
  induction l using dedupFirst.induct with
  | case1 => simp [dedupFirst]
  | case2 y ys ih =>
      rw [dedupFirst]
      by_cases hxy : x = y
      · simp [hxy]
      · simp only [List.mem_cons, ih, List.mem_filter]
        simp [hxy]

theorem str_append_left_cancel {s x y : String} (h : s ++ x = s ++ y) : x = y := by
  have h2 := congrArg String.data h
  rw [String.data_append, String.data_append] at h2
  exact String.ext (List.append_cancel_left h2)

theorem action_ne_session_src (x y : String) :
    "action-" ++ x ≠ "session-" ++ y := by
  intro h
  have h2 := congrArg String.data h
  rw [String.data_append, String.data_append,
    show ("action-" : String).data = ['a', 'c', 't', 'i', 'o', 'n', '-'] from rfl,
    show ("session-" : String).data = ['s', 'e', 's', 's', 'i', 'o', 'n', '-'] from rfl,
    List.cons_append, List.cons_append] at h2
  injection h2 with h3 _
  exact absurd h3 (by decide)

theorem crab_ne_session_src (y : String) :
    ("crab-origin" : String) ≠ "session-" ++ y := by
  intro h
  have h2 := congrArg String.data h
  rw [String.data_append,
    show ("crab-origin" : String).data =
      ['c', 'r', 'a', 'b', '-', 'o', 'r', 'i', 'g', 'i', 'n'] from rfl,
    show ("session-" : String).data = ['s', 'e', 's', 's', 'i', 'o', 'n', '-'] from rfl,
    List.cons_append] at h2
  injection h2 with h3 _
  exact absurd h3 (by decide)

theorem chainEdges_source : ∀ (l : List MonitorAction) (prev : MonitorAction)
    (e : GEdge), e ∈ chainEdges prev l → ∃ pid : String, e.source = "action-" ++ pid := by
  intro l
  induction l with
  | nil => intro prev e h; cases h
  | cons c cs ih =>
      intro prev e h
      rw [chainEdges] at h
      rcases List.mem_cons.mp h with rfl | h2
      · exact ⟨prev.id, rfl⟩
      · exact ih c e h2

theorem crabEdges_source (vs : List MonitorSession) (e : GEdge)
    (h : e ∈ crabEdges vs) : e.source = "crab-origin" := by
  unfold crabEdges at h
  obtain ⟨s, _, rfl⟩ := List.mem_map.mp h
  rfl

/-- Any edge contributed by one run is either that run's session→first
edge (emitted only when the session node is visible) or a chain edge
(whose source is an action node). -/
theorem mem_runEdges_cases (ids : List String) (va : List MonitorAction)
    (r' : String) (e : GEdge) (he : e ∈ runEdges ids va r') :
    (∃ (first' : MonitorAction) (rest' : List MonitorAction),
      sortBySeq (va.filter (fun a => decide (a.runId = r'))) = first' :: rest' ∧
      ("session-" ++ jsKeyStr first'.sessionKey) ∈ ids ∧
      e = { id := "e-session-" ++ r'
            source := "session-" ++ jsKeyStr first'.sessionKey
            target := "action-" ++ first'.id
            animated := decide (first'.type = ActionType.delta) }) ∨
    (∃ pid : String, e.source = "action-" ++ pid) := by
  unfold runEdges at he
  cases hsort : sortBySeq (va.filter (fun a => decide (a.runId = r'))) with
  | nil => rw [hsort] at he; cases he
  | cons f rs =>
      rw [hsort] at he
      dsimp only at he
      by_cases hvis : ("session-" ++ jsKeyStr f.sessionKey) ∈ ids
      · rw [if_pos hvis] at he
        rcases List.mem_append.mp he with h1 | h2
        · rcases List.mem_singleton.mp h1 with rfl
          exact Or.inl ⟨f, rs, rfl, hvis, rfl⟩
        · exact Or.inr (chainEdges_source rs f e h2)
      · rw [if_neg hvis] at he
        rcases List.mem_append.mp he with h1 | h2
        · cases h1
        · exact Or.inr (chainEdges_source rs f e h2)

/-! ## C9: graph edge skip -/

/-- C9.  In the projected graph, for a run group of visible actions (sorted
ascending by seq, first element `first`), the session→first-action edge is
emitted iff the node `session-${first.sessionKey}` is among the visible
session nodes; when it is not, the run contributes only its chain edges (no
session→action edge), while every visible action still gets its node. -/
theorem C9_graph_edge_skip (sessions : List MonitorSession)
    (actions : List MonitorAction) (selected : Option String) (r : String)
    (first : MonitorAction) (rest : List MonitorAction)
    (hgroup : sortBySeq ((visibleActions actions selected).filter
      (fun a => decide (a.runId = r))) = first :: rest) :
    (({ id := "e-session-" ++ r
        source := "session-" ++ jsKeyStr first.sessionKey
        target := "action-" ++ first.id
        animated := decide (first.type = ActionType.delta) } : GEdge) ∈
        buildEdges sessions actions selected ↔
      ("session-" ++ jsKeyStr first.sessionKey) ∈ sessionNodeIds sessions selected) ∧
    (("session-" ++ jsKeyStr first.sessionKey) ∉ sessionNodeIds sessions selected →
      runEdges (sessionNodeIds sessions selected) (visibleActions actions selected) r =
        chainEdges first rest) ∧
    (∀ a ∈ visibleActions actions selected,
      ({ id := "action-" ++ a.id, ntype := "action",
          data := NodeData.action a } : GNode) ∈
        buildNodes sessions actions selected) := by
  refine ⟨⟨?_, ?_⟩, ?_, ?_⟩
  · -- membership forces visibility
    intro hmem
    unfold buildEdges at hmem
    rcases List.mem_append.mp hmem with hcrab | hrun
    · exact absurd (crabEdges_source _ _ hcrab).symm (crab_ne_session_src _)
    · obtain ⟨r', hr'mem, he⟩ := List.mem_flatMap.mp hrun
      rcases mem_runEdges_cases _ _ _ _ he with
        ⟨f', rs', hsort', hvis', heq⟩ | ⟨pid, hsrc⟩
      · have hrr : r = r' := str_append_left_cancel (congrArg GEdge.id heq)
        subst hrr
        rw [hgroup] at hsort'
        injection hsort' with h1 _
        subst h1
        exact hvis'
      · exact absurd hsrc.symm (action_ne_session_src _ _)
  · -- visibility forces membership
    intro hvis
    unfold buildEdges
    refine List.mem_append.mpr (Or.inr (List.mem_flatMap.mpr ⟨r, ?_, ?_⟩))
    · rw [mem_dedupFirst]
      have hfm : first ∈ sortBySeq ((visibleActions actions selected).filter
          (fun a => decide (a.runId = r))) := by
        rw [hgroup]; exact List.mem_cons_self _ _
      rw [mem_sortBySeq] at hfm
      obtain ⟨hva, hrid⟩ := List.mem_filter.mp hfm
      exact List.mem_map.mpr ⟨first, hva, of_decide_eq_true hrid⟩
    · unfold runEdges
      rw [hgroup]
      dsimp only
      rw [if_pos hvis]
      exact List.mem_append.mpr (Or.inl (List.mem_singleton.mpr rfl))
  · -- skip: only the chain edges remain
    intro hnv
    unfold runEdges
    rw [hgroup]
    dsimp only
    rw [if_neg hnv, List.nil_append]
  · -- action nodes are unaffected
    intro a ha
    unfold buildNodes
    exact List.mem_append.mpr (Or.inr (List.mem_map.mpr ⟨a, ha, rfl⟩))

/-- The visible action of the C9 witness: its sessionKey names a session
that is not among the (empty) visible sessions, so the edge is skipped. -/
def c9act : MonitorAction :=
  { id := "r10-1", runId := "r10", sessionKey := some "A", seq := 1,
    type := ActionType.delta, eventType := EventType.agent, timestamp := 1 }

theorem C9_graph_edge_skip_witness :
    (sortBySeq ((visibleActions [c9act] (some "A")).filter
      (fun a => decide (a.runId = "r10"))) = [c9act]) ∧
    ((({ id := "e-session-" ++ "r10"
         source := "session-" ++ jsKeyStr c9act.sessionKey
         target := "action-" ++ c9act.id
         animated := decide (c9act.type = ActionType.delta) } : GEdge) ∈
        buildEdges [] [c9act] (some "A") ↔
      ("session-" ++ jsKeyStr c9act.sessionKey) ∈ sessionNodeIds [] (some "A")) ∧
    (("session-" ++ jsKeyStr c9act.sessionKey) ∉ sessionNodeIds [] (some "A") →
      runEdges (sessionNodeIds [] (some "A")) (visibleActions [c9act] (some "A")) "r10" =
        chainEdges c9act []) ∧
    (∀ a ∈ visibleActions [c9act] (some "A"),
      ({ id := "action-" ++ a.id, ntype := "action",
          data := NodeData.action a } : GNode) ∈
        buildNodes [] [c9act] (some "A"))) :=
  ⟨by decide, C9_graph_edge_skip [] [c9act] (some "A") "r10" c9act [] (by decide)⟩

end Clawdbot
